import Mathlib

/-!
Verification of the Telegram Mini-App bootstrap/authentication handshake of
the komunna repository.  The definitions below are a shallow embedding of
`frontend/src/lib/telegram.ts` (the `TelegramWebApp` host bridge and
validation client) and of `frontend/src/hooks/useTelegram.ts` (the
`initializeTelegram` bootstrap controller and `retryValidation`).

Modelling conventions:
* `window.Telegram?.WebApp` is an `Option WebApp`; `none` means the host
  object is absent (a plain browser tab).
* JavaScript string truthiness (`""` is falsy) is modelled explicitly:
  `x || d` on a possibly-undefined string becomes `jsOrElse`.
* The backend is a function from the outgoing request to a `FetchOutcome`;
  `networkError` models a rejected `fetch` promise (the `catch` branch).
* Host primitives that may throw are modelled by boolean flags on `WebApp`;
  the bridge wrappers return `Except String` results so that an uncaught
  exception would be representable — the theorems show it never escapes.
* `validateUser` returns, besides its result, the list of HTTP requests it
  performed and a flag recording whether the (dead) empty-`initData` branch
  was taken, so that call counts and reachability can be stated.
-/

namespace Komunna

/-- The user block of `initDataUnsafe` / of the backend response body
(`TelegramUser` interface in `telegram.ts`). -/
structure TelegramUser where
  id : Nat
  first_name : String
  last_name : Option String := none
  username : Option String := none
  language_code : Option String := none
  is_premium : Option Bool := none
  photo_url : Option String := none
deriving DecidableEq

/-- Host `themeParams` of the host object: all keys optional. -/
structure ThemeParams where
  bg_color : Option String := none
  text_color : Option String := none
  hint_color : Option String := none
  link_color : Option String := none
  button_color : Option String := none
  button_text_color : Option String := none
  secondary_bg_color : Option String := none
deriving DecidableEq

/-- The host runtime object `window.Telegram.WebApp`.  The `…Throws` flags
model host primitives that raise when invoked. -/
structure WebApp where
  initData : String
  user : Option TelegramUser := none
  themeParams : ThemeParams := {}
  platform : String := ""
  version : String := ""
  readyThrows : Bool := false
  expandThrows : Bool := false
  closingConfirmationThrows : Bool := false
  openTelegramLinkThrows : Bool := false
  showAlertThrows : Bool := false
  showConfirmThrows : Bool := false
deriving DecidableEq

/-- JavaScript `x || d` for a possibly-undefined string `x`
(`undefined` and `""` are both falsy). -/
def jsOrElse (x : Option String) (d : String) : String :=
  match x with
  | none => d
  | some s => if s = "" then d else s

/-- JavaScript `s || d` for a plain string `s`. -/
def jsOrStr (s d : String) : String :=
  if s = "" then d else s

/-- Parsed JSON body of the validation response:
`{ valid?: boolean, user?: TelegramUser, error?: string }`. -/
structure ValidationBody where
  valid : Option Bool := none
  user : Option TelegramUser := none
  error : Option String := none
deriving DecidableEq

/-- An HTTP response as seen by `validateUser`: numeric status plus the
parsed JSON body. -/
structure HttpResponse where
  status : Nat
  body : ValidationBody := {}
deriving DecidableEq

/-- One outgoing HTTP request made by the validation client. -/
structure Request where
  method : String
  url : String
  authorization : String
deriving DecidableEq

/-- Outcome of `fetch`: a response, or a rejected promise (network error). -/
inductive FetchOutcome where
  | ok (resp : HttpResponse)
  | networkError (msg : String)
deriving DecidableEq

/-- Transport success `response.ok`: status in the 200–299 range. -/
def respOk (status : Nat) : Bool :=
  200 ≤ status && status < 300

/-- Constant `API_URL` (the `NEXT_PUBLIC_API_URL` fallback in `telegram.ts`). -/
def API_URL : String := "http://localhost:8000"

/-- The backend validation endpoint URL used by `validateUser`. -/
def validateUrl : String := API_URL ++ "/api/auth/telegram/validate"

/-- Error message returned when the app is not inside Telegram. -/
def errNotInTelegram : String := "Приложение должно быть запущено из Telegram"

/-- Error message for a missing authorization payload. -/
def errMissingAuthData : String := "Отсутствуют данные авторизации Telegram"

/-- Hook error when `initDataUnsafe.user` is absent. -/
def errNoUserData : String := "Не удалось получить данные пользователя из Telegram"

/-- Hook fallback error when the validation result carries no message. -/
def errValidationDefault : String := "Ошибка валидации пользователя"

/-- Server rejection message: `Ошибка сервера: <status>`. -/
def serverErrorMsg (status : Nat) : String :=
  "Ошибка сервера: " ++ toString status

namespace TelegramWebApp

/-- Bridge `isInTelegram()`: false when the host object is absent, otherwise
`!!(initData && initData.length > 0)`. -/
def isInTelegram (w : Option WebApp) : Bool :=
  match w with
  | none => false
  | some wa => wa.initData.length != 0

/-- Bridge `getInitData()`: empty string when the host object or its `initData`
is absent/empty, otherwise the raw `initData`, unparsed. -/
def getInitData (w : Option WebApp) : String :=
  match w with
  | none => ""
  | some wa => if wa.initData = "" then "" else wa.initData

/-- Bridge `getUser()`: the unverified `initDataUnsafe.user`, or `null` when not
in Telegram or when the block is absent. -/
def getUser (w : Option WebApp) : Option TelegramUser :=
  if isInTelegram w = false then none
  else
    match w with
    | none => none
    | some wa => wa.user

/-- Bridge `getPlatformInfo()`: safe defaults when the host is absent. -/
def getPlatformInfo (w : Option WebApp) : String × String × Bool :=
  match w with
  | none => ("web", "unknown", false)
  | some wa =>
      (jsOrStr wa.platform "unknown", jsOrStr wa.version "unknown", isInTelegram w)

/-- Result of `validateUser`: the returned object, the HTTP requests made,
and whether the empty-`initData` branch after the in-Telegram check ran. -/
structure ValidateOutcome where
  result : ValidationBody
  requests : List Request
  missingDataBranch : Bool := false
deriving DecidableEq

/-- Client `validateUser()`: checks `isInTelegram`, reads `getInitData`, then POSTs
to the backend with the raw payload as the `Authorization` header and
returns the parsed body (or a typed failure). -/
def validateUser (w : Option WebApp) (backend : Request → FetchOutcome) :
    ValidateOutcome :=
  if isInTelegram w = false then
    { result := { valid := some false, error := some errNotInTelegram },
      requests := [] }
  else
    let initData := getInitData w
    if initData = "" then
      { result := { valid := some false, error := some errMissingAuthData },
        requests := [], missingDataBranch := true }
    else
      let req : Request :=
        { method := "POST", url := validateUrl, authorization := initData }
      match backend req with
      | .ok resp =>
          if respOk resp.status = false then
            { result := { valid := some false,
                          error := some (serverErrorMsg resp.status) },
              requests := [req] }
          else
            { result := resp.body, requests := [req] }
      | .networkError msg =>
          { result := { valid := some false, error := some msg },
            requests := [req] }

/-- The seven CSS custom properties set by `applyTheme`. -/
structure CssVars where
  bg_color : String
  text_color : String
  hint_color : String
  link_color : String
  button_color : String
  button_text_color : String
  secondary_bg_color : String
deriving DecidableEq

/-- The value mapping of `applyTheme`: host value if present (and truthy),
else the built-in fallback. -/
def themeVars (t : ThemeParams) : CssVars :=
  { bg_color := jsOrElse t.bg_color "#ffffff",
    text_color := jsOrElse t.text_color "#000000",
    hint_color := jsOrElse t.hint_color "#999999",
    link_color := jsOrElse t.link_color "#0088cc",
    button_color := jsOrElse t.button_color "#0088cc",
    button_text_color := jsOrElse t.button_text_color "#ffffff",
    secondary_bg_color := jsOrElse t.secondary_bg_color "#f1f1f1" }

/-- Applier `applyTheme()`: no-op (`none`) when the host object is absent, else the
variables written to `document.documentElement`. -/
def applyTheme (w : Option WebApp) : Option CssVars :=
  match w with
  | none => none
  | some wa => some (themeVars wa.themeParams)

/-- The try-block of `init()`: `ready(); expand();
enableClosingConfirmation();` — first throwing primitive aborts it. -/
def initTryBlock (wa : WebApp) : Except String Unit :=
  if wa.readyThrows then .error "ready failed"
  else if wa.expandThrows then .error "expand failed"
  else if wa.closingConfirmationThrows then .error "enableClosingConfirmation failed"
  else .ok ()

/-- Bridge `init()`: no-op when the host is absent; otherwise runs the try-block
and swallows any exception. -/
def init (w : Option WebApp) : Except String Unit :=
  match w with
  | none => .ok ()
  | some wa =>
      match initTryBlock wa with
      | .ok _ => .ok ()
      | .error _ => .ok ()

/-- Where a link was opened. -/
inductive LinkAction where
  | hostLink (url : String)
  | browserOpen (url : String)
deriving DecidableEq

/-- Bridge `openTelegramLink()`: host call with browser `window.open` fallback on
absence or exception. -/
def openTelegramLink (w : Option WebApp) (username : String) : LinkAction :=
  let url := "https://t.me/" ++ username
  match w with
  | none => .browserOpen url
  | some wa =>
      if wa.openTelegramLinkThrows then .browserOpen url else .hostLink url

/-- Where an alert was shown. -/
inductive AlertAction where
  | hostAlert (msg : String)
  | browserAlert (msg : String)
deriving DecidableEq

/-- Bridge `showAlert()`: host alert with browser `alert` fallback. -/
def showAlert (w : Option WebApp) (msg : String) : AlertAction :=
  match w with
  | none => .browserAlert msg
  | some wa =>
      if wa.showAlertThrows then .browserAlert msg else .hostAlert msg

/-- Where a confirm dialog was shown. -/
inductive ConfirmAction where
  | hostConfirm (msg : String)
  | browserConfirm (msg : String)
deriving DecidableEq

/-- Bridge `showConfirm()`: host confirm with browser `confirm` fallback. -/
def showConfirm (w : Option WebApp) (msg : String) : ConfirmAction :=
  match w with
  | none => .browserConfirm msg
  | some wa =>
      if wa.showConfirmThrows then .browserConfirm msg else .hostConfirm msg

end TelegramWebApp

/-- The React state owned by the `useTelegram` hook. -/
structure HookState where
  user : Option TelegramUser := none
  isInTelegram : Bool := false
  isValidated : Bool := false
  isLoading : Bool := true
  error : Option String := none
  platformInfo : String × String × Bool := ("unknown", "unknown", false)
deriving DecidableEq

/-- The hook's state at mount time (the `useState` initial values). -/
def initialHookState : HookState := {}

/-- The environment a bootstrap pass runs in: the host object, the backend
reachable through `fetch`, and the `NODE_ENV === development` flag. -/
structure Env where
  webApp : Option WebApp
  backend : Request → FetchOutcome
  isDev : Bool

/-- The synthetic user substituted by the development bypass. -/
def mockUser : TelegramUser :=
  { id := 123456789, first_name := "Test User", username := some "testuser",
    language_code := some "ru", is_premium := some false }

/-- Result of one bootstrap pass: the final hook state and the HTTP
requests the pass performed. -/
structure PassResult where
  state : HookState
  requests : List Request
deriving DecidableEq

/-- Controller `initializeTelegram` of `useTelegram.ts`: one sequential bootstrap
pass.  Mirrors the source control flow: reset loading/error, read platform
info, check `isInTelegram` (dev bypass or not-in-Telegram error when
false), read `initData`, read the claimed user, call `validateUser`, and
settle into the validated or failed state; `finally` clears loading. -/
def initializeTelegram (env : Env) (st : HookState) : PassResult :=
  let st := { st with isLoading := true, error := none }
  let st := { st with platformInfo := TelegramWebApp.getPlatformInfo env.webApp }
  let inTg := TelegramWebApp.isInTelegram env.webApp
  let st := { st with isInTelegram := inTg }
  if inTg = false then
    if env.isDev then
      { state := { st with
          user := some mockUser, isValidated := true, isLoading := false },
        requests := [] }
    else
      { state := { st with error := some errNotInTelegram, isLoading := false },
        requests := [] }
  else
    let initData := TelegramWebApp.getInitData env.webApp
    if initData = "" then
      { state := { st with error := some errMissingAuthData, isLoading := false },
        requests := [] }
    else
      match TelegramWebApp.getUser env.webApp with
      | none =>
          { state := { st with error := some errNoUserData, isLoading := false },
            requests := [] }
      | some telegramUser =>
          let vo := TelegramWebApp.validateUser env.webApp env.backend
          match vo.result.valid, vo.result.user with
          | some true, some u =>
              { state := { st with
                  user := some u, isValidated := true, isLoading := false },
                requests := vo.requests }
          | _, _ =>
              let st := { st with
                error := some (jsOrElse vo.result.error errValidationDefault) }
              if env.isDev then
                { state := { st with
                    user := some telegramUser, isValidated := false,
                    isLoading := false },
                  requests := vo.requests }
              else
                { state := { st with isLoading := false },
                  requests := vo.requests }

/-- Hook `retryValidation`: calls `initializeTelegram` again, unconditionally —
the source has no re-entrancy guard, queue or generation counter. -/
def retryValidation (env : Env) (st : HookState) : PassResult :=
  initializeTelegram env st

/-- Two `retry()` invocations in sequence, accumulating requests. -/
def twoRetries (env : Env) (st : HookState) : PassResult :=
  let p1 := retryValidation env st
  let p2 := retryValidation env p1.state
  { state := p2.state, requests := p1.requests ++ p2.requests }

/-! ### Concrete fixtures used by counterexamples and witnesses -/

/-- The user block of the spec scenario: id 42, first name Ann. -/
def ann : TelegramUser := { id := 42, first_name := "Ann" }

/-- A host-claimed (unverified) user present in `initDataUnsafe`. -/
def hostU : TelegramUser := { id := 7, first_name := "Host" }

/-- A host object with payload `"abc"` and a claimed user. -/
def waGood : WebApp := { initData := "abc", user := some hostU }

/-- A host object whose payload reads back empty. -/
def waEmpty : WebApp := { initData := "" }

/-- A host object with an empty payload but a claimed user block. -/
def waEmptyUser : WebApp := { initData := "", user := some hostU }

/-- A backend stub answering HTTP 200 whose body has only a user block
(no `valid` flag). -/
def backendUserOnly : Request → FetchOutcome :=
  fun _ => .ok { status := 200, body := { user := some ann } }

/-- A backend stub answering HTTP 200 with `valid: true` and a user block. -/
def backendValid : Request → FetchOutcome :=
  fun _ => .ok { status := 200, body := { valid := some true, user := some ann } }

/-- A backend stub rejecting every credential with HTTP 401. -/
def backend401 : Request → FetchOutcome :=
  fun _ => .ok { status := 401 }

/-! ### Helper lemmas -/

/-- A string has length zero exactly when it is the empty string. -/
theorem string_length_eq_zero {s : String} : s.length = 0 ↔ s = "" := by
  cases s with
  | mk data =>
      constructor
      · intro h
        have hd : data = [] := List.length_eq_zero.mp h
        subst hd
        rfl
      · intro h
        rw [h]
        rfl

/-- With the host object present, `isInTelegram` is true exactly when the
raw `initData` is non-empty. -/
theorem isInTelegram_some {wa : WebApp} :
    TelegramWebApp.isInTelegram (some wa) = true ↔ wa.initData ≠ "" := by
  unfold TelegramWebApp.isInTelegram
  rw [bne_iff_ne]
  exact not_congr string_length_eq_zero

/-- With the host present and a non-empty payload, `getInitData` returns
the raw payload unchanged. -/
theorem getInitData_some {wa : WebApp} (hd : wa.initData ≠ "") :
    TelegramWebApp.getInitData (some wa) = wa.initData := by
  unfold TelegramWebApp.getInitData
  simp [hd]

/-- With the host object present but an empty payload, `isInTelegram` is
false. -/
theorem isInTelegram_some_empty {wa : WebApp} (hd : wa.initData = "") :
    TelegramWebApp.isInTelegram (some wa) = false := by
  show (wa.initData.length != 0) = false
  rw [hd]
  rfl

/-! ### Claim theorems -/

/-- Claim C9: `applyTheme` with an empty theme mapping sets all six
recognized display variables (and the secondary background) to their
documented defaults — white background, black text, gray hint, standard
blue link and button, white button text — and with only `bg_color` set it
overrides only the background variable, leaving the others at default. -/
theorem C9_themeDefaults :
    TelegramWebApp.applyTheme (some { initData := "x" }) =
      some { bg_color := "#ffffff", text_color := "#000000",
             hint_color := "#999999", link_color := "#0088cc",
             button_color := "#0088cc", button_text_color := "#ffffff",
             secondary_bg_color := "#f1f1f1" } ∧
    TelegramWebApp.applyTheme
        (some { initData := "x", themeParams := { bg_color := some "#123456" } }) =
      some { bg_color := "#123456", text_color := "#000000",
             hint_color := "#999999", link_color := "#0088cc",
             button_color := "#0088cc", button_text_color := "#ffffff",
             secondary_bg_color := "#f1f1f1" } :=
  ⟨rfl, rfl⟩

/-- Claim C10: whenever `isInTelegram` returns true, `getInitData` returns
a non-empty string, and consequently the empty-payload error branch inside
`validateUser` (the one that would return the missing-authorization-data
error after a successful in-Telegram check) never runs, for any host state
and any backend. -/
theorem C10_deadBranch (w : Option WebApp) (backend : Request → FetchOutcome) :
    (TelegramWebApp.isInTelegram w = true → TelegramWebApp.getInitData w ≠ "") ∧
    (TelegramWebApp.validateUser w backend).missingDataBranch = false := by
  cases w with
  | none =>
      constructor
      · intro h
        simp [TelegramWebApp.isInTelegram] at h
      · rfl
  | some wa =>
      by_cases hd : wa.initData = ""
      · constructor
        · intro h
          rw [isInTelegram_some] at h
          exact absurd hd h
        · rw [TelegramWebApp.validateUser, isInTelegram_some_empty hd]
          rfl
      · constructor
        · intro _
          rw [getInitData_some hd]
          exact hd
        · rw [TelegramWebApp.validateUser]
          rw [isInTelegram_some.mpr hd]
          simp only [Bool.true_eq_false, if_false, getInitData_some hd, hd,
            if_neg hd]
          cases hb : backend { method := "POST", url := validateUrl, authorization := wa.initData } with
          | ok resp => cases hr : respOk resp.status <;> simp [hr]
          | networkError msg => rfl

/-- Witness for C10 at a concrete host state: host present with payload
`"abc"`, so the in-Telegram check passes, the payload reads back non-empty
and the dead branch is not taken. -/
theorem C10_deadBranch_witness :
    TelegramWebApp.isInTelegram (some waGood) = true ∧
    TelegramWebApp.getInitData (some waGood) ≠ "" ∧
    (TelegramWebApp.validateUser (some waGood) backendValid).missingDataBranch
      = false :=
  ⟨by decide,
   (C10_deadBranch (some waGood) backendValid).1 (by decide),
   (C10_deadBranch (some waGood) backendValid).2⟩

/-- Claim C5 counterexample: calling the validation entry point with the
host present but an empty payload returns the not-in-Telegram error, not
the missing-authorization-data (`MissingPayload`) error the claim names —
though indeed with zero network calls. -/
theorem C5_counterexample :
    (TelegramWebApp.validateUser (some waEmpty) backendValid).result.error
        = some errNotInTelegram ∧
    errNotInTelegram ≠ errMissingAuthData ∧
    (TelegramWebApp.validateUser (some waEmpty) backendValid).requests = [] :=
  ⟨rfl, by decide, rfl⟩

/-- Claim C5 (amended): calling `validateUser` with an empty payload string
performs no network call and deterministically returns the
not-in-Telegram error (the empty payload makes `isInTelegram` false, so the
missing-payload branch is bypassed); the result does not depend on the
backend, so repeated calls return the same result. -/
theorem C5_emptyPayloadNoCall (wa : WebApp)
    (b1 b2 : Request → FetchOutcome) (hd : wa.initData = "") :
    TelegramWebApp.validateUser (some wa) b1 =
      { result := { valid := some false, user := none,
                    error := some errNotInTelegram },
        requests := [], missingDataBranch := false } ∧
    TelegramWebApp.validateUser (some wa) b1 =
      TelegramWebApp.validateUser (some wa) b2 := by
  have hin := isInTelegram_some_empty hd
  rw [TelegramWebApp.validateUser, TelegramWebApp.validateUser, hin]
  exact ⟨rfl, rfl⟩

/-- Witness for the amended C5 at the concrete empty-payload host state and
two distinct backends. -/
theorem C5_emptyPayloadNoCall_witness :
    waEmpty.initData = "" ∧
    TelegramWebApp.validateUser (some waEmpty) backendValid =
      { result := { valid := some false, user := none,
                    error := some errNotInTelegram },
        requests := [], missingDataBranch := false } ∧
    TelegramWebApp.validateUser (some waEmpty) backendValid =
      TelegramWebApp.validateUser (some waEmpty) backend401 :=
  ⟨rfl, (C5_emptyPayloadNoCall waEmpty backendValid backend401 rfl).1,
   (C5_emptyPayloadNoCall waEmpty backendValid backend401 rfl).2⟩

/-- Claim C7, evaluated on the code: `retryValidation` has no re-entrancy
guard — invoked in the in-flight state it immediately performs a full pass
with its own ValidationClient call, and two retries in quick succession
perform two ValidationClient calls in total, not one. -/
theorem C7_noReentrancyGuard :
    (retryValidation
        { webApp := some waGood, backend := backendValid, isDev := false }
        { initialHookState with isInTelegram := true, isLoading := true }
      ).requests.length = 1 ∧
    (twoRetries
        { webApp := some waGood, backend := backendValid, isDev := false }
        initialHookState).requests.length = 2 :=
  ⟨rfl, rfl⟩

/-- Claim C2: for every non-empty InitPayload, `validateUser` performs
exactly one POST request to the backend validation endpoint carrying the
raw payload, byte for byte and unmodified, as the `Authorization` header
value — whatever the backend answers. -/
theorem C2_rawPayloadSingleRequest (wa : WebApp)
    (backend : Request → FetchOutcome) (hd : wa.initData ≠ "") :
    (TelegramWebApp.validateUser (some wa) backend).requests =
      [{ method := "POST", url := validateUrl, authorization := wa.initData }] := by
  rw [TelegramWebApp.validateUser, isInTelegram_some.mpr hd]
  simp only [Bool.true_eq_false, if_false, getInitData_some hd, if_neg hd]
  cases hb : backend { method := "POST", url := validateUrl, authorization := wa.initData } with
  | ok resp => cases hr : respOk resp.status <;> simp [hr]
  | networkError msg => rfl

/-- Witness for C2 at the concrete payload `"abc"`. -/
theorem C2_rawPayloadSingleRequest_witness :
    waGood.initData ≠ "" ∧
    (TelegramWebApp.validateUser (some waGood) backendValid).requests =
      [{ method := "POST", url := validateUrl,
         authorization := waGood.initData }] :=
  ⟨by decide, C2_rawPayloadSingleRequest waGood backendValid (by decide)⟩

/-- Claim C3: whenever the host runtime object is absent, `isInTelegram`
returns false and the bootstrap pass reaches the not-in-host terminal state
(or, with the development flag on, the synthetic-user bypass) without
making any ValidationClient request. -/
theorem C3_hostAbsent (backend : Request → FetchOutcome) (dev : Bool) :
    TelegramWebApp.isInTelegram none = false ∧
    (initializeTelegram { webApp := none, backend := backend, isDev := dev }
        initialHookState).requests = [] ∧
    (dev = false →
      (initializeTelegram { webApp := none, backend := backend, isDev := dev }
          initialHookState).state =
        { initialHookState with
            isLoading := false, error := some errNotInTelegram,
            platformInfo := ("web", "unknown", false) }) ∧
    (dev = true →
      (initializeTelegram { webApp := none, backend := backend, isDev := dev }
          initialHookState).state =
        { initialHookState with
            user := some mockUser, isValidated := true, isLoading := false,
            platformInfo := ("web", "unknown", false) }) := by
  cases dev with
  | false =>
      refine ⟨rfl, rfl, fun _ => rfl, fun h => absurd h (by decide)⟩
  | true =>
      refine ⟨rfl, rfl, fun h => absurd h (by decide), fun _ => rfl⟩

/-- Witness for C3: host absent, production flag, concrete backend — the
pass ends in the not-in-host error with zero requests. -/
theorem C3_hostAbsent_witness :
    (initializeTelegram
        { webApp := none, backend := backendValid, isDev := false }
        initialHookState).state.error = some errNotInTelegram ∧
    (initializeTelegram
        { webApp := none, backend := backendValid, isDev := false }
        initialHookState).requests = [] :=
  ⟨by rw [(C3_hostAbsent backendValid false).2.2.1 rfl],
   (C3_hostAbsent backendValid false).2.1⟩

/-- Claim C1 counterexample: host present with payload `"abc"` and a
claimed user, backend answering HTTP 200 with body containing exactly the
user block of the claim, id 42 and first name Ann, but no `valid` flag —
the controller does not reach the validated state: it exposes no user and
reports the validation-failure error, because the code additionally
requires `valid: true` in the body. -/
theorem C1_counterexample :
    (initializeTelegram
        { webApp := some waGood, backend := backendUserOnly, isDev := false }
        initialHookState).state.isValidated = false ∧
    (initializeTelegram
        { webApp := some waGood, backend := backendUserOnly, isDev := false }
        initialHookState).state.user = none ∧
    (initializeTelegram
        { webApp := some waGood, backend := backendUserOnly, isDev := false }
        initialHookState).state.error = some errValidationDefault :=
  ⟨rfl, rfl, rfl⟩

/-- Claim C1 (amended): for every backend success response with HTTP
status 200 whose JSON body contains `valid: true` together with a user
block, the controller reaches the validated terminal state exposing
exactly that user, with no error — from any starting hook state and under
either mode flag. -/
theorem C1_validated (wa : WebApp) (st : HookState) (dev : Bool)
    (u hostUser : TelegramUser) (backend : Request → FetchOutcome)
    (hd : wa.initData ≠ "") (hu : wa.user = some hostUser)
    (hb : backend { method := "POST", url := validateUrl, authorization := wa.initData } =
            .ok { status := 200, body := { valid := some true, user := some u } }) :
    (initializeTelegram { webApp := some wa, backend := backend, isDev := dev }
        st).state.isValidated = true ∧
    (initializeTelegram { webApp := some wa, backend := backend, isDev := dev }
        st).state.user = some u ∧
    (initializeTelegram { webApp := some wa, backend := backend, isDev := dev }
        st).state.error = none ∧
    (initializeTelegram { webApp := some wa, backend := backend, isDev := dev }
        st).requests =
      [{ method := "POST", url := validateUrl, authorization := wa.initData }] := by
  have hin := isInTelegram_some.mpr hd
  have hv : TelegramWebApp.validateUser (some wa) backend =
      { result := { valid := some true, user := some u },
        requests := [{ method := "POST", url := validateUrl,
                       authorization := wa.initData }] } := by
    rw [TelegramWebApp.validateUser, hin]
    simp only [Bool.true_eq_false, if_false, getInitData_some hd, if_neg hd, hb]
    rfl
  simp [initializeTelegram, TelegramWebApp.getUser, hin, hv,
    getInitData_some hd, hd, hu]

/-- Witness for the amended C1: payload `"abc"`, claimed user present,
backend answering 200 with `valid: true` and user Ann — the pass settles
validated on Ann. -/
theorem C1_validated_witness :
    waGood.initData ≠ "" ∧
    (initializeTelegram
        { webApp := some waGood, backend := backendValid, isDev := false }
        initialHookState).state.isValidated = true ∧
    (initializeTelegram
        { webApp := some waGood, backend := backendValid, isDev := false }
        initialHookState).state.user = some ann ∧
    (initializeTelegram
        { webApp := some waGood, backend := backendValid, isDev := false }
        initialHookState).state.error = none := by
  obtain ⟨h1, h2, h3, -⟩ :=
    C1_validated waGood initialHookState false ann hostU backendValid
      (by decide) rfl rfl
  exact ⟨by decide, h1, h2, h3⟩

/-- Claim C4: for every validation-failure outcome — any result whose
`valid` flag is not `true` or which carries no user block, e.g. a backend
HTTP 401 rejection — a production-mode pass (development flag off) started
from the mount state settles with no exposed user and `isValidated` false,
reporting the failure message; the unverified host-claimed user is never
substituted. -/
theorem C4_prodNeverSubstitutesUser (wa : WebApp)
    (backend : Request → FetchOutcome) (hostUser : TelegramUser)
    (hd : wa.initData ≠ "") (hu : wa.user = some hostUser)
    (hfail :
      (TelegramWebApp.validateUser (some wa) backend).result.valid ≠ some true ∨
      (TelegramWebApp.validateUser (some wa) backend).result.user = none) :
    (initializeTelegram { webApp := some wa, backend := backend, isDev := false }
        initialHookState).state.isValidated = false ∧
    (initializeTelegram { webApp := some wa, backend := backend, isDev := false }
        initialHookState).state.user = none ∧
    (initializeTelegram { webApp := some wa, backend := backend, isDev := false }
        initialHookState).state.error =
      some (jsOrElse
        (TelegramWebApp.validateUser (some wa) backend).result.error
        errValidationDefault) := by
  have hin := isInTelegram_some.mpr hd
  simp only [initializeTelegram, TelegramWebApp.getUser, hin,
    getInitData_some hd, hd, hu, Bool.true_eq_false, if_false, if_neg hd]
  rcases hv : (TelegramWebApp.validateUser (some wa) backend).result.valid
    with _ | b
  · simp [hv, initialHookState]
  · cases b with
    | false => simp [hv, initialHookState]
    | true =>
        rcases hu2 : (TelegramWebApp.validateUser (some wa) backend).result.user
          with _ | uu
        · simp [hv, hu2, initialHookState]
        · rcases hfail with hf | hf
          · exact absurd hv hf
          · rw [hu2] at hf
            exact absurd hf (by simp)

/-- Witness for C4: payload `"abc"`, claimed user present, backend
rejecting with HTTP 401, production mode — the pass exposes no user and
reports the server error. -/
theorem C4_prodNeverSubstitutesUser_witness :
    waGood.initData ≠ "" ∧
    (TelegramWebApp.validateUser (some waGood) backend401).result.valid
      ≠ some true ∧
    (initializeTelegram
        { webApp := some waGood, backend := backend401, isDev := false }
        initialHookState).state.isValidated = false ∧
    (initializeTelegram
        { webApp := some waGood, backend := backend401, isDev := false }
        initialHookState).state.user = none ∧
    (initializeTelegram
        { webApp := some waGood, backend := backend401, isDev := false }
        initialHookState).state.error = some (serverErrorMsg 401) := by
  obtain ⟨h1, h2, h3⟩ :=
    C4_prodNeverSubstitutesUser waGood backend401 hostU (by decide) rfl
      (Or.inl (by decide))
  exact ⟨by decide, by decide, h1, h2, h3⟩

/-- Claim C6 counterexample: host object present but its payload empty —
the controller ends with the not-in-Telegram error, not the
missing-auth-payload error the claim names (the empty payload makes
`isInTelegram` false, so the run is classified as not-in-host); no
ValidationClient request is made. -/
theorem C6_counterexample :
    (initializeTelegram
        { webApp := some waEmptyUser, backend := backendValid, isDev := false }
        initialHookState).state.error = some errNotInTelegram ∧
    errNotInTelegram ≠ errMissingAuthData ∧
    (initializeTelegram
        { webApp := some waEmptyUser, backend := backendValid, isDev := false }
        initialHookState).requests = [] :=
  ⟨rfl, by decide, rfl⟩

/-- Claim C6 (amended): a run in which the host is present but the
InitPayload reads back empty is treated as not-in-host: the controller
reaches the not-in-Telegram error state in production (or the gated dev
bypass in development) without invoking the ValidationClient, and the
missing-auth-payload error state is never produced. -/
theorem C6_emptyPayloadNotInHost (wa : WebApp)
    (backend : Request → FetchOutcome) (dev : Bool) (hd : wa.initData = "") :
    (initializeTelegram { webApp := some wa, backend := backend, isDev := dev }
        initialHookState).requests = [] ∧
    (initializeTelegram { webApp := some wa, backend := backend, isDev := dev }
        initialHookState).state.error ≠ some errMissingAuthData ∧
    (dev = false →
      (initializeTelegram { webApp := some wa, backend := backend, isDev := dev }
          initialHookState).state.error = some errNotInTelegram) ∧
    (dev = true →
      (initializeTelegram { webApp := some wa, backend := backend, isDev := dev }
          initialHookState).state.user = some mockUser ∧
      (initializeTelegram { webApp := some wa, backend := backend, isDev := dev }
          initialHookState).state.isValidated = true) := by
  have hin := isInTelegram_some_empty hd
  cases dev with
  | false =>
      refine ⟨?_, ?_, fun _ => ?_, fun h => absurd h (by decide)⟩
      · simp [initializeTelegram, hin]
      · simp [initializeTelegram, hin]
        decide
      · simp [initializeTelegram, hin]
  | true =>
      refine ⟨?_, ?_, fun h => absurd h (by decide), fun _ => ⟨?_, ?_⟩⟩
      · simp [initializeTelegram, hin]
      · simp [initializeTelegram, hin]
      · simp [initializeTelegram, hin]
      · simp [initializeTelegram, hin]

/-- Witness for the amended C6: concrete host with empty payload and a
claimed user, production mode — no request, not-in-Telegram error. -/
theorem C6_emptyPayloadNotInHost_witness :
    waEmptyUser.initData = "" ∧
    (initializeTelegram
        { webApp := some waEmptyUser, backend := backend401, isDev := false }
        initialHookState).requests = [] ∧
    (initializeTelegram
        { webApp := some waEmptyUser, backend := backend401, isDev := false }
        initialHookState).state.error = some errNotInTelegram := by
  obtain ⟨h1, -, h3, -⟩ :=
    C6_emptyPayloadNotInHost waEmptyUser backend401 false rfl
  exact ⟨rfl, h1, h3 rfl⟩

/-- A host object every primitive of which throws when invoked. -/
def waThrowing : WebApp :=
  { initData := "x", readyThrows := true, expandThrows := true,
    closingConfirmationThrows := true, openTelegramLinkThrows := true,
    showAlertThrows := true, showConfirmThrows := true }

/-- Claim C8: no HostBridge operation raises, for any host state including
an absent host and hosts whose primitives throw: `init` (ready, expand,
closing confirmation) swallows exceptions, the read operations return
their safe defaults (false, empty string, null, web platform info) when
the host is absent, and link opening, alerts and confirms fall back to the
browser-native action on absence or on a throwing host primitive. -/
theorem C8_neverRaises (w : Option WebApp) (wa : WebApp)
    (username msg : String) :
    TelegramWebApp.init w = Except.ok () ∧
    TelegramWebApp.isInTelegram none = false ∧
    TelegramWebApp.getInitData none = "" ∧
    TelegramWebApp.getUser none = none ∧
    TelegramWebApp.applyTheme none = none ∧
    TelegramWebApp.getPlatformInfo none = ("web", "unknown", false) ∧
    TelegramWebApp.openTelegramLink none username =
      .browserOpen ("https://t.me/" ++ username) ∧
    TelegramWebApp.showAlert none msg = .browserAlert msg ∧
    TelegramWebApp.showConfirm none msg = .browserConfirm msg ∧
    (wa.openTelegramLinkThrows = true →
      TelegramWebApp.openTelegramLink (some wa) username =
        .browserOpen ("https://t.me/" ++ username)) ∧
    (wa.showAlertThrows = true →
      TelegramWebApp.showAlert (some wa) msg = .browserAlert msg) ∧
    (wa.showConfirmThrows = true →
      TelegramWebApp.showConfirm (some wa) msg = .browserConfirm msg) := by
  refine ⟨?_, rfl, rfl, rfl, rfl, rfl, rfl, rfl, rfl, ?_, ?_, ?_⟩
  · cases w with
    | none => rfl
    | some wa' =>
        show (match TelegramWebApp.initTryBlock wa' with
              | Except.ok _ => (Except.ok () : Except String Unit)
              | Except.error _ => Except.ok ()) = Except.ok ()
        cases TelegramWebApp.initTryBlock wa' <;> rfl
  · intro h
    simp [TelegramWebApp.openTelegramLink, h]
  · intro h
    simp [TelegramWebApp.showAlert, h]
  · intro h
    simp [TelegramWebApp.showConfirm, h]

/-- Witness for C8 at a host whose every primitive throws: `init` still
succeeds and every user-facing operation lands on its browser fallback. -/
theorem C8_neverRaises_witness :
    waThrowing.showAlertThrows = true ∧
    TelegramWebApp.init (some waThrowing) = Except.ok () ∧
    TelegramWebApp.openTelegramLink (some waThrowing) "user" =
      .browserOpen ("https://t.me/" ++ "user") ∧
    TelegramWebApp.showAlert (some waThrowing) "msg" = .browserAlert "msg" ∧
    TelegramWebApp.showConfirm (some waThrowing) "msg" =
      .browserConfirm "msg" := by
  obtain ⟨h1, -, -, -, -, -, -, -, -, h10, h11, h12⟩ :=
    C8_neverRaises (some waThrowing) waThrowing "user" "msg"
  exact ⟨rfl, h1, h10 rfl, h11 rfl, h12 rfl⟩

end Komunna
